import Mathlib

/-!
Verification of the surge-trade python SDK's funding-rate and
risk-aggregation core against its specification.

The embedding covers `surge/tools/utility.py` (the funding-rate model)
and `surge/types.py` (valuation, aggregation, and request decoding).
Protocol numbers are modelled as rationals (the ledger uses a
fixed-precision decimal representation).  Python's `float` division,
which raises `ZeroDivisionError` on a zero divisor, is modelled in the
decoders by a checked division returning `Except`; the pure funding
model mirrors the source expressions directly (its divisions are either
guarded by the zero-open-interest branch or compared formula-to-formula).
-/

/-- Configuration parameters for a trading pair: `PairConfig` from
`surge/types.py`, all 17 fields in source order. -/
structure PairConfig where
  pair : String
  price_max_age : Int
  oi_max : ℚ
  trade_size_min : ℚ
  update_price_delta_ratio : ℚ
  update_period_seconds : ℚ
  margin : ℚ
  margin_maintenance : ℚ
  funding_1 : ℚ
  funding_2 : ℚ
  funding_2_delta : ℚ
  funding_2_decay : ℚ
  funding_pool_0 : ℚ
  funding_pool_1 : ℚ
  funding_share : ℚ
  fee_0 : ℚ
  fee_1 : ℚ
deriving DecidableEq

/-- The output dictionary of `calculate_funding_rates` in
`surge/tools/utility.py`. -/
structure FundingRates where
  funding_1 : ℚ
  funding_2 : ℚ
  funding_2_raw : ℚ
  funding_2_max : ℚ
  funding_2_min : ℚ
  funding_long_apr : ℚ
  funding_long_24h : ℚ
  funding_short_apr : ℚ
  funding_short_24h : ℚ
  funding_pool_24h : ℚ
deriving DecidableEq

/-- `calculate_funding_rates` from `surge/tools/utility.py`, transcribed
let-for-let.  In the zero-open-interest branch the source assigns the
integer `0` to `funding_long`, `funding_short`, `funding_share` and
`funding_pool` and performs no division other than by the literal 365. -/
def calculate_funding_rates (oi_long oi_short skew funding_2_raw price : ℚ)
    (pair_config : PairConfig) : FundingRates :=
  let funding_1 := skew * pair_config.funding_1
  let funding_2_max := oi_long * price
  let funding_2_min := -oi_short * price
  let funding_2 := min (max funding_2_raw funding_2_min) funding_2_max * pair_config.funding_2
  if oi_long = 0 ∨ oi_short = 0 then
    { funding_1 := funding_1
      funding_2 := funding_2
      funding_2_raw := funding_2_raw
      funding_2_max := funding_2_max
      funding_2_min := funding_2_min
      funding_long_apr := 0
      funding_long_24h := 0 / 365
      funding_short_apr := 0
      funding_short_24h := 0 / 365
      funding_pool_24h := 0 / 365 }
  else
    let funding := funding_1 + funding_2
    let fsi : ℚ × ℚ × ℚ :=
      if funding > 0 then
        let funding_long := funding
        let funding_share := funding_long * pair_config.funding_share
        (funding_long / oi_long, -(funding_long - funding_share) / oi_short, funding_share)
      else
        let funding_short := -funding
        let funding_share := funding_short * pair_config.funding_share
        (-(funding_short - funding_share) / oi_long, funding_short / oi_short, funding_share)
    let funding_long_index := fsi.1
    let funding_short_index := fsi.2.1
    let funding_share := fsi.2.2
    let oi_net := oi_long + oi_short
    let funding_pool_0 := oi_net * price * pair_config.funding_pool_0
    let funding_pool_1 := |skew| * pair_config.funding_pool_1
    let funding_pool := funding_pool_0 + funding_pool_1
    let funding_pool_index := funding_pool / oi_net
    let funding_long := (funding_long_index + funding_pool_index) / price
    let funding_short := (funding_short_index + funding_pool_index) / price
    let funding_pool2 := funding_pool + funding_share
    { funding_1 := funding_1
      funding_2 := funding_2
      funding_2_raw := funding_2_raw
      funding_2_max := funding_2_max
      funding_2_min := funding_2_min
      funding_long_apr := funding_long
      funding_long_24h := funding_long / 365
      funding_short_apr := funding_short
      funding_short_24h := funding_short / 365
      funding_pool_24h := funding_pool2 / 365 }

/-- The local `funding_2` of `calculate_funding_rates` (line 41 of
`surge/tools/utility.py`): the raw accumulator clamped to
`[-oi_short*price, oi_long*price]` and scaled by the pair coefficient. -/
def clamped_funding_2 (oi_long oi_short funding_2_raw price : ℚ)
    (pair_config : PairConfig) : ℚ :=
  min (max funding_2_raw (-oi_short * price)) (oi_long * price) * pair_config.funding_2

/-- The local `funding = funding_1 + funding_2` of the non-degenerate
branch of `calculate_funding_rates`. -/
def funding_value (oi_long oi_short skew funding_2_raw price : ℚ)
    (pair_config : PairConfig) : ℚ :=
  skew * pair_config.funding_1 +
    clamped_funding_2 oi_long oi_short funding_2_raw price pair_config

/-- The local `funding_share` of the non-degenerate branch of
`calculate_funding_rates` (carved out of whichever side pays). -/
def funding_share_value (oi_long oi_short skew funding_2_raw price : ℚ)
    (pair_config : PairConfig) : ℚ :=
  let funding := funding_value oi_long oi_short skew funding_2_raw price pair_config
  if funding > 0 then funding * pair_config.funding_share
  else -funding * pair_config.funding_share

/-- The local `funding_long_index` of the non-degenerate branch of
`calculate_funding_rates`. -/
def funding_long_index_value (oi_long oi_short skew funding_2_raw price : ℚ)
    (pair_config : PairConfig) : ℚ :=
  let funding := funding_value oi_long oi_short skew funding_2_raw price pair_config
  if funding > 0 then funding / oi_long
  else -(-funding - -funding * pair_config.funding_share) / oi_long

/-- The local `funding_short_index` of the non-degenerate branch of
`calculate_funding_rates`. -/
def funding_short_index_value (oi_long oi_short skew funding_2_raw price : ℚ)
    (pair_config : PairConfig) : ℚ :=
  let funding := funding_value oi_long oi_short skew funding_2_raw price pair_config
  if funding > 0 then -(funding - funding * pair_config.funding_share) / oi_short
  else -funding / oi_short

/-- The local `funding_pool` of the non-degenerate branch of
`calculate_funding_rates` before the carved-out share is added back. -/
def funding_pool_value (oi_long oi_short skew price : ℚ)
    (pair_config : PairConfig) : ℚ :=
  (oi_long + oi_short) * price * pair_config.funding_pool_0 +
    |skew| * pair_config.funding_pool_1

/-- The value of the local `funding_pool` at the return point of
`calculate_funding_rates`: zero in the degenerate branch, and the pool
funding plus the carved-out `funding_share` otherwise. -/
def funding_pool_total (oi_long oi_short skew funding_2_raw price : ℚ)
    (pair_config : PairConfig) : ℚ :=
  if oi_long = 0 ∨ oi_short = 0 then 0
  else funding_pool_value oi_long oi_short skew price pair_config +
    funding_share_value oi_long oi_short skew funding_2_raw price pair_config

/-- A leaf value of the gateway's programmatic-JSON encoding: the
payload found under a `value` or `variant_id` key.  Numeric leaves are
modelled as already-parsed rationals; Python's `float(..)`/`int(..)`
conversions succeed exactly on numeric leaves. -/
inductive Val where
  | str : String → Val
  | num : ℚ → Val
  | bool : Bool → Val
deriving DecidableEq

/-- A node of the gateway's programmatic-JSON encoding.  Each node is a
dictionary that may carry a `value`, a `variant_id`, a `fields` list and
an `elements` list; a Python `KeyError` on an absent key is modelled by
the corresponding component being `none`. -/
inductive SborValue where
  | mk (value variant_id : Option Val) (fields elements : Option (List SborValue)) : SborValue

def SborValue.value : SborValue → Option Val
  | .mk v _ _ _ => v

def SborValue.variant_id : SborValue → Option Val
  | .mk _ v _ _ => v

def SborValue.fields : SborValue → Option (List SborValue)
  | .mk _ _ f _ => f

def SborValue.elements : SborValue → Option (List SborValue)
  | .mk _ _ _ e => e

/-- Errors a decoder can raise: a missing price for a referenced pair
(Python `KeyError(pair)` on the price map, which carries the pair id), a
structural decoding failure (Python `KeyError`/`IndexError`/`ValueError`
on the record itself), and Python's `ZeroDivisionError`. -/
inductive DecErr where
  | missingPrice : String → DecErr
  | shapeError : DecErr
  | divisionByZero : DecErr
deriving DecidableEq

/-- Lift an optional lookup into the decoder monad, raising
`shapeError` on `none`. -/
def orShape {α : Type} : Option α → Except DecErr α
  | some a => .ok a
  | none => .error .shapeError

/-- Python `float(x)` on a leaf value. -/
def Val.toFloat : Val → Option ℚ
  | .num q => some q
  | .bool b => some (if b then 1 else 0)
  | .str _ => none

/-- Python `int(x)` on a leaf value. -/
def Val.toInt : Val → Option Int
  | .num q => some ⌊q⌋
  | _ => none

/-- Python `bool(x)` on a leaf value (total: truthiness). -/
def Val.toBool : Val → Bool
  | .bool b => b
  | .num q => decide (q ≠ 0)
  | .str s => !s.isEmpty

/-- Python string leaf extraction (used where the source keys a
dictionary by the decoded value). -/
def Val.asStr : Val → Except DecErr String
  | .str s => .ok s
  | _ => .error .shapeError

/-- Python `lst[i]`, raising `IndexError` out of range. -/
def getField (l : List SborValue) (i : Nat) : Except DecErr SborValue :=
  orShape (l.get? i)

/-- Python `lst[i]['value']`. -/
def getVal (l : List SborValue) (i : Nat) : Except DecErr Val := do
  let x ← getField l i
  orShape x.value

/-- Python `float(lst[i]['value'])`. -/
def getFloat (l : List SborValue) (i : Nat) : Except DecErr ℚ := do
  let v ← getVal l i
  orShape v.toFloat

/-- Python `int(lst[i]['value'])`. -/
def getInt (l : List SborValue) (i : Nat) : Except DecErr Int := do
  let v ← getVal l i
  orShape v.toInt

/-- Python `lst[i]['value']` coerced to a string key. -/
def getStr (l : List SborValue) (i : Nat) : Except DecErr String := do
  let v ← getVal l i
  v.asStr

/-- Python `prices[pair]`: a missing entry raises `KeyError(pair)`,
modelled as a `missingPrice` error identifying the pair. -/
def lookupPrice (prices : String → Option ℚ) (pair : String) : Except DecErr ℚ :=
  match prices pair with
  | some p => .ok p
  | none => .error (.missingPrice pair)

/-- Python float division, which raises `ZeroDivisionError` on a zero
divisor. -/
def pydiv (a b : ℚ) : Except DecErr ℚ :=
  if b = 0 then .error .divisionByZero else .ok (a / b)

/-- A valued margin-trading position: the record returned by
`Position.from_json` in `surge/types.py`. -/
structure Position where
  pair : String
  size : ℚ
  value : ℚ
  entry_price : ℚ
  mark_price : ℚ
  margin : ℚ
  margin_maintenance : ℚ
  pnl : ℚ
  roi : ℚ
deriving DecidableEq

/-- `Position.from_json` from `surge/types.py`: decodes the six stored
fields, looks up the mark price, and derives the valued record.  The
source performs the divisions `cost / size` and `pnl / abs(cost)`
unguarded. -/
def Position.from_json (elem : SborValue) (prices : String → Option ℚ) :
    Except DecErr Position := do
  let fields ← orShape elem.fields
  let pair ← getStr fields 0
  let size ← getFloat fields 1
  let margin ← getFloat fields 2
  let margin_maintenance ← getFloat fields 3
  let cost ← getFloat fields 4
  let funding ← getFloat fields 5
  let mark_price ← lookupPrice prices pair
  let entry_price ← pydiv cost size
  let value := size * mark_price
  let margin := margin * mark_price
  let margin_maintenance := margin_maintenance * mark_price
  let pnl := value - cost - funding
  let roi0 ← pydiv pnl |cost|
  let roi := roi0 * 100
  return { pair := pair, size := size, value := value, entry_price := entry_price,
           mark_price := mark_price, margin := margin,
           margin_maintenance := margin_maintenance, pnl := pnl, roi := roi }

/-- A valued collateral deposit: the record returned by
`Collateral.from_json` in `surge/types.py`. -/
structure Collateral where
  pair : String
  resource : Val
  mark_price : ℚ
  amount : ℚ
  value : ℚ
  discount : ℚ
  value_discounted : ℚ
  margin : ℚ
deriving DecidableEq

/-- `Collateral.from_json` from `surge/types.py`. -/
def Collateral.from_json (elem : SborValue) (prices : String → Option ℚ) :
    Except DecErr Collateral := do
  let fields ← orShape elem.fields
  let pair ← getStr fields 0
  let resource ← getVal fields 1
  let amount ← getFloat fields 2
  let discount ← getFloat fields 3
  let margin ← getFloat fields 4
  let mark_price ← lookupPrice prices pair
  let value := amount * mark_price
  let value_discounted := value * discount
  let margin := margin * mark_price
  return { pair := pair, resource := resource, mark_price := mark_price,
           amount := amount, value := value, discount := discount,
           value_discounted := value_discounted, margin := margin }

/-- Overview of a margin account: the record returned by
`AccountOverview.from_positions_and_collaterals` in `surge/types.py`. -/
structure AccountOverview where
  account_value : ℚ
  account_value_discounted : ℚ
  available_margin : ℚ
  available_margin_maintenance : ℚ
  balance : ℚ
  total_pnl : ℚ
  total_margin : ℚ
  total_margin_maintenance : ℚ
  total_collateral_value : ℚ
  total_collateral_value_discounted : ℚ
deriving DecidableEq

/-- `AccountOverview.from_positions_and_collaterals` from
`surge/types.py`, sum-for-sum. -/
def AccountOverview.from_positions_and_collaterals (balance : ℚ)
    (positions : List Position) (collaterals : List Collateral) : AccountOverview :=
  let total_pnl := (positions.map Position.pnl).sum
  let total_margin := (positions.map Position.margin).sum +
    (collaterals.map Collateral.margin).sum
  let total_margin_maintenance := (positions.map Position.margin_maintenance).sum +
    (collaterals.map Collateral.margin).sum
  let total_collateral_value := (collaterals.map Collateral.value).sum
  let total_collateral_value_discounted := (collaterals.map Collateral.value_discounted).sum
  let account_value := balance + total_pnl + total_collateral_value
  let account_value_discounted := balance + total_pnl + total_collateral_value_discounted
  let available_margin := account_value_discounted - total_margin
  let available_margin_maintenance := account_value_discounted - total_margin_maintenance
  { account_value := account_value
    account_value_discounted := account_value_discounted
    available_margin := available_margin
    available_margin_maintenance := available_margin_maintenance
    balance := balance
    total_pnl := total_pnl
    total_margin := total_margin
    total_margin_maintenance := total_margin_maintenance
    total_collateral_value := total_collateral_value
    total_collateral_value_discounted := total_collateral_value_discounted }

/-- `PairConfig.from_json` from `surge/types.py`: 17 positional fields. -/
def PairConfig.from_json (fields : List SborValue) : Except DecErr PairConfig := do
  let pair ← getStr fields 0
  let price_max_age ← getInt fields 1
  let oi_max ← getFloat fields 2
  let trade_size_min ← getFloat fields 3
  let update_price_delta_ratio ← getFloat fields 4
  let update_period_seconds ← getFloat fields 5
  let margin ← getFloat fields 6
  let margin_maintenance ← getFloat fields 7
  let funding_1 ← getFloat fields 8
  let funding_2 ← getFloat fields 9
  let funding_2_delta ← getFloat fields 10
  let funding_2_decay ← getFloat fields 11
  let funding_pool_0 ← getFloat fields 12
  let funding_pool_1 ← getFloat fields 13
  let funding_share ← getFloat fields 14
  let fee_0 ← getFloat fields 15
  let fee_1 ← getFloat fields 16
  return { pair := pair, price_max_age := price_max_age, oi_max := oi_max,
           trade_size_min := trade_size_min,
           update_price_delta_ratio := update_price_delta_ratio,
           update_period_seconds := update_period_seconds, margin := margin,
           margin_maintenance := margin_maintenance, funding_1 := funding_1,
           funding_2 := funding_2, funding_2_delta := funding_2_delta,
           funding_2_decay := funding_2_decay, funding_pool_0 := funding_pool_0,
           funding_pool_1 := funding_pool_1, funding_share := funding_share,
           fee_0 := fee_0, fee_1 := fee_1 }

/-- Detailed state of a trading pair: the record returned by
`PairDetails.from_json` in `surge/types.py`. -/
structure PairDetails where
  pair : String
  oi_long : ℚ
  oi_short : ℚ
  oi_net : ℚ
  cost : ℚ
  skew : ℚ
  funding_1 : ℚ
  funding_2 : ℚ
  funding_2_raw : ℚ
  funding_2_max : ℚ
  funding_2_min : ℚ
  funding_long_apr : ℚ
  funding_long_24h : ℚ
  funding_short_apr : ℚ
  funding_short_24h : ℚ
  funding_pool_24h : ℚ
  pair_config : PairConfig
deriving DecidableEq

/-- `PairDetails.from_json` from `surge/types.py`.  Lines 294-324 of the
source inline, expression for expression, the same funding computation
as `calculate_funding_rates`; each division site is modelled with the
checked `pydiv` in source order. -/
def PairDetails.from_json (elem : SborValue) (prices : String → Option ℚ) :
    Except DecErr PairDetails := do
  let fields ← orShape elem.fields
  let pair ← getStr fields 0
  let f1 ← getField fields 1
  let pool_position ← orShape f1.fields
  let oi_long ← getFloat pool_position 0
  let oi_short ← getFloat pool_position 1
  let cost ← getFloat pool_position 2
  let funding_2_raw ← getFloat pool_position 5
  let f2 ← getField fields 2
  let cfgFields ← orShape f2.fields
  let pair_config ← PairConfig.from_json cfgFields
  let price ← lookupPrice prices pair
  let oi_net := oi_long + oi_short
  let skew := (oi_long - oi_short) * price
  let funding_1 := skew * pair_config.funding_1
  let funding_2_max := oi_long * price
  let funding_2_min := -oi_short * price
  let funding_2 := min (max funding_2_raw funding_2_min) funding_2_max * pair_config.funding_2
  let res ←
    if oi_long = 0 ∨ oi_short = 0 then
      Except.ok ((0 : ℚ), (0 : ℚ), (0 : ℚ))
    else do
      let funding := funding_1 + funding_2
      let fsi ←
        if funding > 0 then do
          let funding_long := funding
          let funding_share := funding_long * pair_config.funding_share
          let funding_long_index ← pydiv funding_long oi_long
          let funding_short_index ← pydiv (-(funding_long - funding_share)) oi_short
          Except.ok (funding_share, funding_long_index, funding_short_index)
        else do
          let funding_short := -funding
          let funding_share := funding_short * pair_config.funding_share
          let funding_long_index ← pydiv (-(funding_short - funding_share)) oi_long
          let funding_short_index ← pydiv funding_short oi_short
          Except.ok (funding_share, funding_long_index, funding_short_index)
      let funding_share := fsi.1
      let funding_long_index := fsi.2.1
      let funding_short_index := fsi.2.2
      let funding_pool_0 := oi_net * price * pair_config.funding_pool_0
      let funding_pool_1 := |skew| * pair_config.funding_pool_1
      let funding_pool := funding_pool_0 + funding_pool_1
      let funding_pool_index ← pydiv funding_pool oi_net
      let funding_long ← pydiv (funding_long_index + funding_pool_index) price
      let funding_short ← pydiv (funding_short_index + funding_pool_index) price
      Except.ok (funding_long, funding_short, funding_pool + funding_share)
  let funding_long := res.1
  let funding_short := res.2.1
  let funding_pool := res.2.2
  return { pair := pair, oi_long := oi_long, oi_short := oi_short, oi_net := oi_net,
           cost := cost, skew := skew, funding_1 := funding_1, funding_2 := funding_2,
           funding_2_raw := funding_2_raw, funding_2_max := funding_2_max,
           funding_2_min := funding_2_min, funding_long_apr := funding_long,
           funding_long_24h := funding_long / 365, funding_short_apr := funding_short,
           funding_short_24h := funding_short / 365,
           funding_pool_24h := funding_pool / 365, pair_config := pair_config }

/-- Request status enumeration (`RequestStatus` in `surge/types.py`). -/
inductive RequestStatus where
  | dormant | active | executed | canceled | expired | failed | unknown
deriving DecidableEq

/-- Request type enumeration (`RequestType` in `surge/types.py`). -/
inductive RequestType where
  | removeCollateral | marketLong | marketShort | stopLong | limitShort
  | stopShort | limitLong | unknown
deriving DecidableEq

/-- The status-code table of `Request.from_json` (a Python `dict.get`
with default `UNKNOWN`). -/
def statusFromId (s : Int) : RequestStatus :=
  if s = 0 then .dormant
  else if s = 1 then .active
  else if s = 2 then .executed
  else if s = 3 then .canceled
  else if s = 4 then .expired
  else if s = 5 then .failed
  else .unknown

/-- A price-limit condition (`PriceLimit` in `surge/types.py`). -/
inductive PriceLimit where
  | none : PriceLimit
  | gte : ℚ → PriceLimit
  | lte : ℚ → PriceLimit
deriving DecidableEq

/-- `PriceLimit.from_json` from `surge/types.py`: variant 0 is `None`,
variant 1 is `Gte`, and any other variant id falls into the `Lte` arm
(the source uses a bare `else`). -/
def PriceLimit.from_json (j : SborValue) : Except DecErr PriceLimit := do
  let vidV ← orShape j.variant_id
  let variant_id ← orShape vidV.toInt
  if variant_id = 0 then
    return PriceLimit.none
  else if variant_id = 1 then do
    let fs ← orShape j.fields
    let value ← getFloat fs 0
    return PriceLimit.gte value
  else do
    let fs ← orShape j.fields
    let value ← getFloat fs 0
    return PriceLimit.lte value

/-- A slippage-limit condition (`SlippageLimit` in `surge/types.py`). -/
inductive SlippageLimit where
  | none : SlippageLimit
  | percent : ℚ → SlippageLimit
  | absolute : ℚ → SlippageLimit
deriving DecidableEq

/-- `SlippageLimit.from_json` from `surge/types.py`. -/
def SlippageLimit.from_json (j : SborValue) : Except DecErr SlippageLimit := do
  let vidV ← orShape j.variant_id
  let variant_id ← orShape vidV.toInt
  if variant_id = 0 then
    return SlippageLimit.none
  else if variant_id = 1 then do
    let fs ← orShape j.fields
    let value ← getFloat fs 0
    return SlippageLimit.percent value
  else do
    let fs ← orShape j.fields
    let value ← getFloat fs 0
    return SlippageLimit.absolute value

/-- A claim inside a remove-collateral request; the source stores both
leaves raw (`claim[0]['value']`, `claim[1]['value']`). -/
structure RequestClaim where
  resource : Val
  size : Val
deriving DecidableEq

/-- Details of a remove-collateral request. -/
structure RemoveCollateralDetails where
  target_account : Val
  claims : List RequestClaim
deriving DecidableEq

/-- Details of a margin-order request. -/
structure MarginOrderDetails where
  pair : Val
  size : ℚ
  reduce_only : Bool
  limit_price : PriceLimit
  limit_slippage : SlippageLimit
  activate_requests : List Val
  cancel_requests : List Val
deriving DecidableEq

/-- The `request_details` payload: one of the two decoded variants, or
`none` for an unrecognized top-level variant. -/
inductive RequestDetails where
  | removeCollateral : RemoveCollateralDetails → RequestDetails
  | marginOrder : MarginOrderDetails → RequestDetails
  | none : RequestDetails
deriving DecidableEq

/-- The six-entry order-type table of `Request.from_json` keyed on
(price-limit kind, `size >= 0`); the source's `dict.get` default
`UNKNOWN` is unreachable since the six keys cover the whole space. -/
def classifyOrder : PriceLimit → Bool → RequestType
  | .none, true => .marketLong
  | .none, false => .marketShort
  | .gte _, true => .stopLong
  | .lte _, false => .limitShort
  | .lte _, true => .limitLong
  | .gte _, false => .stopShort

/-- A decoded request (`Request` in `surge/types.py`); `index`,
`submission` and `expiry` are stored raw. -/
structure Request where
  type : RequestType
  index : Val
  submission : Val
  expiry : Val
  status : RequestStatus
  request_details : RequestDetails
deriving DecidableEq

/-- `Request.from_json` from `surge/types.py`, statement for statement.
Note the source extracts `request[1]['fields'][0]['fields']` (the
variant payload) BEFORE dispatching on the variant id, so that access
happens for unrecognized variants as well. -/
def Request.from_json (elem : SborValue) : Except DecErr Request := do
  let request ← orShape elem.fields
  let r0 ← getField request 0
  let index ← orShape r0.value
  let r2 ← getField request 2
  let submission ← orShape r2.value
  let r3 ← getField request 3
  let expiry ← orShape r3.value
  let r4 ← getField request 4
  let s4 ← orShape r4.value
  let status_id ← orShape s4.toInt
  let r1 ← getField request 1
  let v1 ← orShape r1.variant_id
  let request_variant_id ← orShape v1.toInt
  let r1fields ← orShape r1.fields
  let r1f0 ← getField r1fields 0
  let request_inner ← orShape r1f0.fields
  let status := statusFromId status_id
  if request_variant_id = 0 then do
    let t0 ← getField request_inner 0
    let target_account ← orShape t0.value
    let c1 ← getField request_inner 1
    let claimElems ← orShape c1.elements
    let claims ← claimElems.mapM (fun claim => do
      let cf ← orShape claim.fields
      let e0 ← getField cf 0
      let resource ← orShape e0.value
      let e1 ← getField cf 1
      let size ← orShape e1.value
      Except.ok ({ resource := resource, size := size } : RequestClaim))
    Except.ok { type := RequestType.removeCollateral, index := index,
                submission := submission, expiry := expiry, status := status,
                request_details := RequestDetails.removeCollateral
                  { target_account := target_account, claims := claims } }
  else if request_variant_id = 1 then do
    let i0 ← getField request_inner 0
    let pair_id ← orShape i0.value
    let size ← getFloat request_inner 1
    let rv ← getVal request_inner 2
    let reduce_only := rv.toBool
    let i3 ← getField request_inner 3
    let limit_price ← PriceLimit.from_json i3
    let i4 ← getField request_inner 4
    let limit_slippage ← SlippageLimit.from_json i4
    let i5 ← getField request_inner 5
    let a5 ← orShape i5.elements
    let activate_requests ← a5.mapM (fun i => orShape i.value)
    let i6 ← getField request_inner 6
    let a6 ← orShape i6.elements
    let cancel_requests ← a6.mapM (fun i => orShape i.value)
    let type := classifyOrder limit_price (decide (0 ≤ size))
    Except.ok { type := type, index := index, submission := submission,
                expiry := expiry, status := status,
                request_details := RequestDetails.marginOrder
                  { pair := pair_id, size := size, reduce_only := reduce_only,
                    limit_price := limit_price, limit_slippage := limit_slippage,
                    activate_requests := activate_requests,
                    cancel_requests := cancel_requests } }
  else
    Except.ok { type := RequestType.unknown, index := index,
                submission := submission, expiry := expiry, status := status,
                request_details := RequestDetails.none }

/-- A node holding only a leaf value. -/
def leaf (v : Val) : SborValue := .mk (some v) Option.none Option.none Option.none

/-- A node holding only a `fields` list (a struct node). -/
def structNode (fs : List SborValue) : SborValue :=
  .mk Option.none Option.none (some fs) Option.none

/-- A node holding a `variant_id` and a `fields` list (an enum node). -/
def enumNode (vid : ℚ) (fs : List SborValue) : SborValue :=
  .mk Option.none (some (.num vid)) (some fs) Option.none

/-- A node holding only an `elements` list (an array node). -/
def arrayNode (es : List SborValue) : SborValue :=
  .mk Option.none Option.none Option.none (some es)

/-- A well-shaped stored position record: the six positional fields
consumed by `Position.from_json`. -/
def mkPositionRecord (pair : String) (size margin margin_maintenance cost funding : ℚ) :
    SborValue :=
  structNode [leaf (.str pair), leaf (.num size), leaf (.num margin),
    leaf (.num margin_maintenance), leaf (.num cost), leaf (.num funding)]

/-- A well-shaped stored collateral record: the five positional fields
consumed by `Collateral.from_json`. -/
def mkCollateralRecord (pair resource : String) (amount discount margin : ℚ) :
    SborValue :=
  structNode [leaf (.str pair), leaf (.str resource), leaf (.num amount),
    leaf (.num discount), leaf (.num margin)]

/-- A well-shaped pair-config field list: the 17 positional fields
consumed by `PairConfig.from_json`. -/
def mkPairConfigFields (pair : String)
    (price_max_age oi_max trade_size_min upd_ratio upd_period margin
      margin_maintenance f1 f2 f2_delta f2_decay fp0 fp1 fshare fee0 fee1 : ℚ) :
    List SborValue :=
  [leaf (.str pair), leaf (.num price_max_age), leaf (.num oi_max),
   leaf (.num trade_size_min), leaf (.num upd_ratio), leaf (.num upd_period),
   leaf (.num margin), leaf (.num margin_maintenance), leaf (.num f1),
   leaf (.num f2), leaf (.num f2_delta), leaf (.num f2_decay), leaf (.num fp0),
   leaf (.num fp1), leaf (.num fshare), leaf (.num fee0), leaf (.num fee1)]

/-- A well-shaped pair-details record: pair id, a six-field pool
position (indices 3 and 4 are present but unread), and the pair-config
struct, as consumed by `PairDetails.from_json`. -/
def mkPairDetailsRecord (pair : String) (oi_long oi_short cost p3 p4 funding_2_raw : ℚ)
    (cfgFields : List SborValue) : SborValue :=
  structNode [leaf (.str pair),
    structNode [leaf (.num oi_long), leaf (.num oi_short), leaf (.num cost),
      leaf (.num p3), leaf (.num p4), leaf (.num funding_2_raw)],
    structNode cfgFields]

/-- The funding-rate algorithm as the specification words it (section
4.1 steps 1-5 of the spec), stated about the outputs of
`calculate_funding_rates`: the base and clamped secondary funding, the
per-unit indices with the carved-out share, the pool funding, the
normalized annual rates, and the pool accumulating the share before
time-scaling. -/
def FundingSpecClaim (oi_long oi_short skew funding_2_raw price : ℚ)
    (pair_config : PairConfig) : Prop :=
  let funding_1 := skew * pair_config.funding_1
  let funding_2 :=
    min (max funding_2_raw (-oi_short * price)) (oi_long * price) * pair_config.funding_2
  let funding := funding_1 + funding_2
  let funding_share := (if funding > 0 then funding else -funding) * pair_config.funding_share
  let funding_long_index :=
    if funding > 0 then funding / oi_long else -(-funding - funding_share) / oi_long
  let funding_short_index :=
    if funding > 0 then -(funding - funding_share) / oi_short else -funding / oi_short
  let funding_pool := (oi_long + oi_short) * price * pair_config.funding_pool_0 +
    |skew| * pair_config.funding_pool_1
  let r := calculate_funding_rates oi_long oi_short skew funding_2_raw price pair_config
  r.funding_1 = funding_1 ∧
  r.funding_2 = funding_2 ∧
  r.funding_long_apr = (funding_long_index + funding_pool / (oi_long + oi_short)) / price ∧
  r.funding_short_apr = (funding_short_index + funding_pool / (oi_long + oi_short)) / price ∧
  r.funding_pool_24h = (funding_pool + funding_share) / 365

/-- The pair configuration of the spec's concrete scenario:
`funding_1 = 0.0001`, `funding_2 = 0.00005`, `funding_share = 0.1`,
all other coefficients zero. -/
def cfgScenario : PairConfig where
  pair := "BTC/USD"
  price_max_age := 0
  oi_max := 0
  trade_size_min := 0
  update_price_delta_ratio := 0
  update_period_seconds := 0
  margin := 0
  margin_maintenance := 0
  funding_1 := 1/10000
  funding_2 := 5/100000
  funding_2_delta := 0
  funding_2_decay := 0
  funding_pool_0 := 0
  funding_pool_1 := 0
  funding_share := 1/10
  fee_0 := 0
  fee_1 := 0

/-- A pair configuration with every coefficient equal to one (used to
exhibit the zero-open-interest degeneracy for nonzero coefficients). -/
def cfgOnes : PairConfig where
  pair := "X"
  price_max_age := 1
  oi_max := 1
  trade_size_min := 1
  update_price_delta_ratio := 1
  update_period_seconds := 1
  margin := 1
  margin_maintenance := 1
  funding_1 := 1
  funding_2 := 1
  funding_2_delta := 1
  funding_2_decay := 1
  funding_pool_0 := 1
  funding_pool_1 := 1
  funding_share := 1
  fee_0 := 1
  fee_1 := 1

/-- A pair configuration isolating the secondary-funding coefficient
(`funding_2 = 3`, everything else zero). -/
def cfgClamp : PairConfig where
  pair := "X"
  price_max_age := 0
  oi_max := 0
  trade_size_min := 0
  update_price_delta_ratio := 0
  update_period_seconds := 0
  margin := 0
  margin_maintenance := 0
  funding_1 := 0
  funding_2 := 3
  funding_2_delta := 0
  funding_2_decay := 0
  funding_pool_0 := 0
  funding_pool_1 := 0
  funding_share := 0
  fee_0 := 0
  fee_1 := 0

/-- A pair configuration isolating the clamp (`funding_2 = 1`,
everything else zero), used for the funding-symmetry analysis. -/
def cfgSwapEx : PairConfig where
  pair := "X"
  price_max_age := 0
  oi_max := 0
  trade_size_min := 0
  update_price_delta_ratio := 0
  update_period_seconds := 0
  margin := 0
  margin_maintenance := 0
  funding_1 := 0
  funding_2 := 1
  funding_2_delta := 0
  funding_2_decay := 0
  funding_pool_0 := 0
  funding_pool_1 := 0
  funding_share := 0
  fee_0 := 0
  fee_1 := 0

/-- Closed form of `calculate_funding_rates` in the non-degenerate
branch, expressed through the named transcriptions of its locals. -/
lemma calculate_funding_rates_closed_form
    (oi_long oi_short skew funding_2_raw price : ℚ) (pair_config : PairConfig)
    (h : ¬(oi_long = 0 ∨ oi_short = 0)) :
    calculate_funding_rates oi_long oi_short skew funding_2_raw price pair_config =
      { funding_1 := skew * pair_config.funding_1
        funding_2 := clamped_funding_2 oi_long oi_short funding_2_raw price pair_config
        funding_2_raw := funding_2_raw
        funding_2_max := oi_long * price
        funding_2_min := -oi_short * price
        funding_long_apr :=
          (funding_long_index_value oi_long oi_short skew funding_2_raw price pair_config +
            funding_pool_value oi_long oi_short skew price pair_config / (oi_long + oi_short)) / price
        funding_long_24h :=
          (funding_long_index_value oi_long oi_short skew funding_2_raw price pair_config +
            funding_pool_value oi_long oi_short skew price pair_config / (oi_long + oi_short)) / price / 365
        funding_short_apr :=
          (funding_short_index_value oi_long oi_short skew funding_2_raw price pair_config +
            funding_pool_value oi_long oi_short skew price pair_config / (oi_long + oi_short)) / price
        funding_short_24h :=
          (funding_short_index_value oi_long oi_short skew funding_2_raw price pair_config +
            funding_pool_value oi_long oi_short skew price pair_config / (oi_long + oi_short)) / price / 365
        funding_pool_24h :=
          (funding_pool_value oi_long oi_short skew price pair_config +
            funding_share_value oi_long oi_short skew funding_2_raw price pair_config) / 365 } := by
  simp only [calculate_funding_rates, clamped_funding_2, funding_value,
    funding_share_value, funding_long_index_value, funding_short_index_value,
    funding_pool_value, if_neg h]
  split_ifs <;> rfl

/-- The `funding_2` output field is the clamped, scaled secondary
funding in both branches of `calculate_funding_rates`. -/
lemma calculate_funding_rates_funding_2
    (oi_long oi_short skew funding_2_raw price : ℚ) (pair_config : PairConfig) :
    (calculate_funding_rates oi_long oi_short skew funding_2_raw price pair_config).funding_2 =
      clamped_funding_2 oi_long oi_short funding_2_raw price pair_config := by
  simp only [calculate_funding_rates, clamped_funding_2]
  split_ifs <;> rfl

/-- C1: for positive open interest on both sides,
`calculate_funding_rates` realizes the spec's algorithm: base funding
from skew, clamped secondary funding, the per-unit long/short indices
with the funding share carved out (sign-and-role swapped when funding
is nonpositive), pool funding from net open interest and absolute skew,
annual rates normalized by price, and the pool accumulating the
carved-out share before time-scaling. -/
theorem funding_rates_spec_algorithm
    (oi_long oi_short skew funding_2_raw price : ℚ) (pair_config : PairConfig)
    (hl : 0 < oi_long) (hs : 0 < oi_short) :
    FundingSpecClaim oi_long oi_short skew funding_2_raw price pair_config := by
  have h : ¬(oi_long = 0 ∨ oi_short = 0) := by
    rintro (h | h)
    · exact absurd h hl.ne'
    · exact absurd h hs.ne'
  unfold FundingSpecClaim
  rw [calculate_funding_rates_closed_form _ _ _ _ _ _ h]
  simp only [funding_long_index_value, funding_short_index_value, funding_share_value,
    funding_pool_value, funding_value, clamped_funding_2]
  refine ⟨by trivial, by trivial, ?_, ?_, ?_⟩ <;> split_ifs <;> rfl

/-- C1 witness: the spec algorithm at a concrete input. -/
theorem funding_rates_spec_algorithm_witness :
    0 < (10 : ℚ) ∧ 0 < (5 : ℚ) ∧ FundingSpecClaim 10 5 500 1000 100 cfgScenario :=
  ⟨by decide, by decide,
    funding_rates_spec_algorithm 10 5 500 1000 100 cfgScenario (by decide) (by decide)⟩

/-- C2: with zero open interest on either side every derived funding
rate of `calculate_funding_rates` is zero, for any skew, raw secondary
funding, price and coefficients; the degenerate branch of the source
performs no division at all (other than the final scaling by the
literal 365), so no division by zero is ever executed. -/
theorem funding_rates_zero_oi
    (oi_long oi_short skew funding_2_raw price : ℚ) (pair_config : PairConfig)
    (h : oi_long = 0 ∨ oi_short = 0) :
    (calculate_funding_rates oi_long oi_short skew funding_2_raw price pair_config).funding_long_apr = 0 ∧
    (calculate_funding_rates oi_long oi_short skew funding_2_raw price pair_config).funding_long_24h = 0 ∧
    (calculate_funding_rates oi_long oi_short skew funding_2_raw price pair_config).funding_short_apr = 0 ∧
    (calculate_funding_rates oi_long oi_short skew funding_2_raw price pair_config).funding_short_24h = 0 ∧
    (calculate_funding_rates oi_long oi_short skew funding_2_raw price pair_config).funding_pool_24h = 0 := by
  simp only [calculate_funding_rates, if_pos h]
  norm_num

/-- C2 witness: the degenerate branch at a concrete input with every
coefficient nonzero. -/
theorem funding_rates_zero_oi_witness :
    ((0 : ℚ) = 0 ∨ (7 : ℚ) = 0) ∧
    ((calculate_funding_rates 0 7 3 99 2 cfgOnes).funding_long_apr = 0 ∧
     (calculate_funding_rates 0 7 3 99 2 cfgOnes).funding_long_24h = 0 ∧
     (calculate_funding_rates 0 7 3 99 2 cfgOnes).funding_short_apr = 0 ∧
     (calculate_funding_rates 0 7 3 99 2 cfgOnes).funding_short_24h = 0 ∧
     (calculate_funding_rates 0 7 3 99 2 cfgOnes).funding_pool_24h = 0) :=
  ⟨Or.inl rfl, funding_rates_zero_oi 0 7 3 99 2 cfgOnes (Or.inl rfl)⟩

/-- C3: with nonnegative open interest, price and secondary-funding
coefficient, the `funding_2` output of `calculate_funding_rates` stays
within `[-oi_short*price*funding_2, oi_long*price*funding_2]` for an
arbitrary raw accumulator value. -/
theorem funding_2_clamp_bounds
    (oi_long oi_short skew funding_2_raw price : ℚ) (pair_config : PairConfig)
    (hl : 0 ≤ oi_long) (hs : 0 ≤ oi_short) (hp : 0 ≤ price)
    (hc : 0 ≤ pair_config.funding_2) :
    -oi_short * price * pair_config.funding_2 ≤
      (calculate_funding_rates oi_long oi_short skew funding_2_raw price pair_config).funding_2 ∧
    (calculate_funding_rates oi_long oi_short skew funding_2_raw price pair_config).funding_2 ≤
      oi_long * price * pair_config.funding_2 := by
  rw [calculate_funding_rates_funding_2]
  unfold clamped_funding_2
  have hlo : -oi_short * price ≤ 0 := by
    have := mul_nonneg hs hp
    linarith
  have hhi : 0 ≤ oi_long * price := mul_nonneg hl hp
  have h1 : -oi_short * price ≤ min (max funding_2_raw (-oi_short * price)) (oi_long * price) :=
    le_min (le_max_right _ _) (hlo.trans hhi)
  have h2 : min (max funding_2_raw (-oi_short * price)) (oi_long * price) ≤ oi_long * price :=
    min_le_right _ _
  constructor
  · have := mul_le_mul_of_nonneg_right h1 hc
    linarith
  · have := mul_le_mul_of_nonneg_right h2 hc
    linarith

/-- C3 witness: the clamp bound at a concrete input with the raw
accumulator far above the clamp interval. -/
theorem funding_2_clamp_bounds_witness :
    (0 : ℚ) ≤ 10 ∧ (0 : ℚ) ≤ 5 ∧ (0 : ℚ) ≤ 100 ∧ (0 : ℚ) ≤ cfgClamp.funding_2 ∧
    (-5 * 100 * cfgClamp.funding_2 ≤
        (calculate_funding_rates 10 5 (-7) 1000000 100 cfgClamp).funding_2 ∧
      (calculate_funding_rates 10 5 (-7) 1000000 100 cfgClamp).funding_2 ≤
        10 * 100 * cfgClamp.funding_2) :=
  ⟨by decide, by decide, by decide, by decide,
    funding_2_clamp_bounds 10 5 (-7) 1000000 100 cfgClamp
      (by decide) (by decide) (by decide) (by decide)⟩

/-- C5: every 24h output of `calculate_funding_rates` is the matching
annual rate divided by 365 exactly, and the pool's 24h rate is the
final (post-share-accumulation) pool funding divided by 365. -/
theorem daily_rates_consistency
    (oi_long oi_short skew funding_2_raw price : ℚ) (pair_config : PairConfig) :
    (calculate_funding_rates oi_long oi_short skew funding_2_raw price pair_config).funding_long_24h =
      (calculate_funding_rates oi_long oi_short skew funding_2_raw price pair_config).funding_long_apr / 365 ∧
    (calculate_funding_rates oi_long oi_short skew funding_2_raw price pair_config).funding_short_24h =
      (calculate_funding_rates oi_long oi_short skew funding_2_raw price pair_config).funding_short_apr / 365 ∧
    (calculate_funding_rates oi_long oi_short skew funding_2_raw price pair_config).funding_pool_24h =
      funding_pool_total oi_long oi_short skew funding_2_raw price pair_config / 365 := by
  by_cases h : oi_long = 0 ∨ oi_short = 0
  · simp only [calculate_funding_rates, funding_pool_total, if_pos h]
    norm_num
  · rw [calculate_funding_rates_closed_form _ _ _ _ _ _ h]
    simp only [funding_pool_total, if_neg h]
    exact ⟨by trivial, by trivial, by trivial⟩

/-- C6: the concrete scenario of the spec — the exposed outputs and the
intermediate locals of `calculate_funding_rates` at `oi_long=10,
oi_short=5, price=100, skew=500, funding_2_raw=1000` with coefficients
`funding_1=0.0001, funding_2=0.00005, funding_share=0.1`. -/
theorem funding_concrete_scenario :
    (calculate_funding_rates 10 5 500 1000 100 cfgScenario).funding_1 = 5/100 ∧
    (calculate_funding_rates 10 5 500 1000 100 cfgScenario).funding_2_max = 1000 ∧
    (calculate_funding_rates 10 5 500 1000 100 cfgScenario).funding_2_min = -500 ∧
    (calculate_funding_rates 10 5 500 1000 100 cfgScenario).funding_2 = 5/100 ∧
    funding_value 10 5 500 1000 100 cfgScenario = 10/100 ∧
    (0 : ℚ) < funding_value 10 5 500 1000 100 cfgScenario ∧
    funding_share_value 10 5 500 1000 100 cfgScenario = 1/100 ∧
    funding_long_index_value 10 5 500 1000 100 cfgScenario = 1/100 ∧
    funding_short_index_value 10 5 500 1000 100 cfgScenario = -(18/1000) := by
  have h : ¬((10 : ℚ) = 0 ∨ (5 : ℚ) = 0) := by norm_num
  have hmax : max (1000 : ℚ) (-5 * 100) = 1000 := by
    rw [max_eq_left]
    norm_num
  have hmin : min (1000 : ℚ) (10 * 100) = 1000 := by
    rw [min_eq_left]
    norm_num
  have hval : funding_value 10 5 500 1000 100 cfgScenario = 10/100 := by
    simp only [funding_value, clamped_funding_2, cfgScenario]
    rw [hmax, hmin]
    norm_num
  have hpos : (0 : ℚ) < funding_value 10 5 500 1000 100 cfgScenario := by
    rw [hval]
    norm_num
  refine ⟨?_, ?_, ?_, ?_, hval, hpos, ?_, ?_, ?_⟩
  · rw [calculate_funding_rates_closed_form 10 5 500 1000 100 cfgScenario h]
    simp only [cfgScenario]
    norm_num
  · rw [calculate_funding_rates_closed_form 10 5 500 1000 100 cfgScenario h]
    norm_num
  · rw [calculate_funding_rates_closed_form 10 5 500 1000 100 cfgScenario h]
    norm_num
  · rw [calculate_funding_rates_funding_2]
    simp only [clamped_funding_2, cfgScenario]
    rw [hmax, hmin]
    norm_num
  · simp only [funding_share_value]
    rw [if_pos hpos, hval]
    simp only [cfgScenario]
    norm_num
  · simp only [funding_long_index_value]
    rw [if_pos hpos, hval]
    norm_num
  · simp only [funding_short_index_value]
    rw [if_pos hpos, hval]
    simp only [cfgScenario]
    norm_num

/-- Negating the clamped value flips a clamp whose bounds are negated
and swapped, provided the bounds are ordered. -/
lemma neg_clamp (x s l p : ℚ) (h : -s * p ≤ l * p) :
    min (max (-x) (-l * p)) (s * p) = -(min (max x (-s * p)) (l * p)) := by
  simp only [min_def, max_def]
  split_ifs <;> linarith

/-- Negating skew and the raw accumulator while swapping the open
interests negates the `funding` local of `calculate_funding_rates`. -/
lemma funding_value_swap (oi_long oi_short skew funding_2_raw price : ℚ)
    (pair_config : PairConfig) (h : -oi_short * price ≤ oi_long * price) :
    funding_value oi_short oi_long (-skew) (-funding_2_raw) price pair_config
      = -funding_value oi_long oi_short skew funding_2_raw price pair_config := by
  simp only [funding_value, clamped_funding_2]
  rw [neg_clamp funding_2_raw oi_short oi_long price h]
  ring

/-- Under the sign-and-swap transformation the long index becomes the
original short index. -/
lemma funding_long_index_swap (oi_long oi_short skew funding_2_raw price : ℚ)
    (pair_config : PairConfig) (h : -oi_short * price ≤ oi_long * price) :
    funding_long_index_value oi_short oi_long (-skew) (-funding_2_raw) price pair_config
      = funding_short_index_value oi_long oi_short skew funding_2_raw price pair_config := by
  simp only [funding_long_index_value, funding_short_index_value]
  rw [funding_value_swap _ _ _ _ _ _ h]
  rcases lt_trichotomy (funding_value oi_long oi_short skew funding_2_raw price pair_config) 0
    with hc | hc | hc
  · rw [if_pos (by linarith :
        -funding_value oi_long oi_short skew funding_2_raw price pair_config > 0),
      if_neg (by linarith :
        ¬funding_value oi_long oi_short skew funding_2_raw price pair_config > 0)]
  · rw [hc]
    norm_num
  · rw [if_neg (by linarith :
        ¬-funding_value oi_long oi_short skew funding_2_raw price pair_config > 0),
      if_pos hc]
    ring

/-- Under the sign-and-swap transformation the short index becomes the
original long index. -/
lemma funding_short_index_swap (oi_long oi_short skew funding_2_raw price : ℚ)
    (pair_config : PairConfig) (h : -oi_short * price ≤ oi_long * price) :
    funding_short_index_value oi_short oi_long (-skew) (-funding_2_raw) price pair_config
      = funding_long_index_value oi_long oi_short skew funding_2_raw price pair_config := by
  simp only [funding_long_index_value, funding_short_index_value]
  rw [funding_value_swap _ _ _ _ _ _ h]
  rcases lt_trichotomy (funding_value oi_long oi_short skew funding_2_raw price pair_config) 0
    with hc | hc | hc
  · rw [if_pos (by linarith :
        -funding_value oi_long oi_short skew funding_2_raw price pair_config > 0),
      if_neg (by linarith :
        ¬funding_value oi_long oi_short skew funding_2_raw price pair_config > 0)]
  · rw [hc]
    norm_num
  · rw [if_neg (by linarith :
        ¬-funding_value oi_long oi_short skew funding_2_raw price pair_config > 0),
      if_pos hc]
    ring

/-- Under the sign-and-swap transformation the carved-out funding share
is unchanged. -/
lemma funding_share_swap (oi_long oi_short skew funding_2_raw price : ℚ)
    (pair_config : PairConfig) (h : -oi_short * price ≤ oi_long * price) :
    funding_share_value oi_short oi_long (-skew) (-funding_2_raw) price pair_config
      = funding_share_value oi_long oi_short skew funding_2_raw price pair_config := by
  simp only [funding_share_value]
  rw [funding_value_swap _ _ _ _ _ _ h]
  rcases lt_trichotomy (funding_value oi_long oi_short skew funding_2_raw price pair_config) 0
    with hc | hc | hc
  · rw [if_pos (by linarith :
        -funding_value oi_long oi_short skew funding_2_raw price pair_config > 0),
      if_neg (by linarith :
        ¬funding_value oi_long oi_short skew funding_2_raw price pair_config > 0)]
  · rw [hc]
    norm_num
  · rw [if_neg (by linarith :
        ¬-funding_value oi_long oi_short skew funding_2_raw price pair_config > 0),
      if_pos hc]
    ring

/-- Under the sign-and-swap transformation the pool funding is
unchanged. -/
lemma funding_pool_swap (oi_long oi_short skew price : ℚ) (pair_config : PairConfig) :
    funding_pool_value oi_short oi_long (-skew) price pair_config
      = funding_pool_value oi_long oi_short skew price pair_config := by
  simp only [funding_pool_value, abs_neg]
  ring

/-- C4 counterexample: with `funding_2_raw` held fixed (as the claim
states), negating skew and swapping the open interests does NOT swap
the funding rates, because the clamp bounds swap while the raw
accumulator does not.  At `oi_long=2, oi_short=1, price=1, skew=1,
funding_2_raw=1000` with `funding_2=1` and all other coefficients zero,
the original short rate is `-2` but the transformed long rate is `1`. -/
theorem funding_swap_symmetry_counterexample :
    ¬((calculate_funding_rates 1 2 (-1) 1000 1 cfgSwapEx).funding_long_apr
      = (calculate_funding_rates 2 1 1 1000 1 cfgSwapEx).funding_short_apr) := by
  have h1 : ¬((1 : ℚ) = 0 ∨ (2 : ℚ) = 0) := by norm_num
  have h2 : ¬((2 : ℚ) = 0 ∨ (1 : ℚ) = 0) := by norm_num
  rw [calculate_funding_rates_closed_form _ _ _ _ _ _ h1,
    calculate_funding_rates_closed_form _ _ _ _ _ _ h2]
  have hmax1 : max (1000 : ℚ) (-2 * 1) = 1000 := by
    rw [max_eq_left]
    norm_num
  have hmin1 : min (1000 : ℚ) (1 * 1) = 1 * 1 := by
    rw [min_eq_right]
    norm_num
  have hmax2 : max (1000 : ℚ) (-1 * 1) = 1000 := by
    rw [max_eq_left]
    norm_num
  have hmin2 : min (1000 : ℚ) (2 * 1) = 2 * 1 := by
    rw [min_eq_right]
    norm_num
  have hA : funding_value 1 2 (-1) 1000 1 cfgSwapEx = 1 := by
    simp only [funding_value, clamped_funding_2, cfgSwapEx]
    rw [hmax1, hmin1]
    norm_num
  have hB : funding_value 2 1 1 1000 1 cfgSwapEx = 2 := by
    simp only [funding_value, clamped_funding_2, cfgSwapEx]
    rw [hmax2, hmin2]
    norm_num
  have hposA : (0 : ℚ) < funding_value 1 2 (-1) 1000 1 cfgSwapEx := by
    rw [hA]
    norm_num
  have hposB : (0 : ℚ) < funding_value 2 1 1 1000 1 cfgSwapEx := by
    rw [hB]
    norm_num
  dsimp only
  simp only [funding_long_index_value, funding_short_index_value, funding_pool_value]
  rw [if_pos hposA, if_pos hposB, hA, hB]
  simp only [cfgSwapEx]
  norm_num

/-- C4 amended: for nonnegative price and positive open interest on
both sides, negating BOTH skew and the raw secondary-funding
accumulator while swapping the open interests swaps the long and short
annual rates and leaves the pool's 24h rate unchanged. -/
theorem funding_swap_symmetry_amended
    (oi_long oi_short skew funding_2_raw price : ℚ) (pair_config : PairConfig)
    (hl : 0 < oi_long) (hs : 0 < oi_short) (hp : 0 ≤ price) :
    (calculate_funding_rates oi_short oi_long (-skew) (-funding_2_raw) price pair_config).funding_long_apr
      = (calculate_funding_rates oi_long oi_short skew funding_2_raw price pair_config).funding_short_apr ∧
    (calculate_funding_rates oi_short oi_long (-skew) (-funding_2_raw) price pair_config).funding_short_apr
      = (calculate_funding_rates oi_long oi_short skew funding_2_raw price pair_config).funding_long_apr ∧
    (calculate_funding_rates oi_short oi_long (-skew) (-funding_2_raw) price pair_config).funding_pool_24h
      = (calculate_funding_rates oi_long oi_short skew funding_2_raw price pair_config).funding_pool_24h := by
  have hb : -oi_short * price ≤ oi_long * price := by
    have h1 := mul_nonneg hs.le hp
    have h2 := mul_nonneg hl.le hp
    linarith
  have hA : ¬(oi_short = 0 ∨ oi_long = 0) := by
    rintro (h | h)
    · exact absurd h hs.ne'
    · exact absurd h hl.ne'
  have hB : ¬(oi_long = 0 ∨ oi_short = 0) := by
    rintro (h | h)
    · exact absurd h hl.ne'
    · exact absurd h hs.ne'
  rw [calculate_funding_rates_closed_form _ _ _ _ _ _ hA,
    calculate_funding_rates_closed_form _ _ _ _ _ _ hB]
  dsimp only
  rw [funding_long_index_swap _ _ _ _ _ _ hb, funding_short_index_swap _ _ _ _ _ _ hb,
    funding_share_swap _ _ _ _ _ _ hb, funding_pool_swap, add_comm oi_short oi_long]
  exact ⟨rfl, rfl, rfl⟩

/-- C4 amended witness: the corrected symmetry at a concrete input. -/
theorem funding_swap_symmetry_amended_witness :
    0 < (2 : ℚ) ∧ 0 < (1 : ℚ) ∧ 0 ≤ (1 : ℚ) ∧
    ((calculate_funding_rates 1 2 (-1) (-1000) 1 cfgSwapEx).funding_long_apr
      = (calculate_funding_rates 2 1 1 1000 1 cfgSwapEx).funding_short_apr ∧
    (calculate_funding_rates 1 2 (-1) (-1000) 1 cfgSwapEx).funding_short_apr
      = (calculate_funding_rates 2 1 1 1000 1 cfgSwapEx).funding_long_apr ∧
    (calculate_funding_rates 1 2 (-1) (-1000) 1 cfgSwapEx).funding_pool_24h
      = (calculate_funding_rates 2 1 1 1000 1 cfgSwapEx).funding_pool_24h) :=
  ⟨by decide, by decide, by decide,
    funding_swap_symmetry_amended 2 1 1 1000 1 cfgSwapEx (by decide) (by decide) (by decide)⟩

/-- C7: the account aggregation is additive — total margin is the sum
of per-position margin plus per-collateral margin, maintenance margin
substitutes the position maintenance figures (collateral margin serves
both roles), account value is balance plus total PnL plus total
collateral value, the two available-margin figures subtract the
corresponding totals from the discounted account value, and empty
inputs give zero totals and an account value equal to the balance. -/
theorem account_aggregation (balance : ℚ) (positions : List Position)
    (collaterals : List Collateral) :
    (AccountOverview.from_positions_and_collaterals balance positions collaterals).total_margin
      = (positions.map Position.margin).sum + (collaterals.map Collateral.margin).sum ∧
    (AccountOverview.from_positions_and_collaterals balance positions collaterals).total_margin_maintenance
      = (positions.map Position.margin_maintenance).sum + (collaterals.map Collateral.margin).sum ∧
    (AccountOverview.from_positions_and_collaterals balance positions collaterals).account_value
      = balance +
        (AccountOverview.from_positions_and_collaterals balance positions collaterals).total_pnl +
        (AccountOverview.from_positions_and_collaterals balance positions collaterals).total_collateral_value ∧
    (AccountOverview.from_positions_and_collaterals balance positions collaterals).available_margin
      = (AccountOverview.from_positions_and_collaterals balance positions collaterals).account_value_discounted -
        (AccountOverview.from_positions_and_collaterals balance positions collaterals).total_margin ∧
    (AccountOverview.from_positions_and_collaterals balance positions collaterals).available_margin_maintenance
      = (AccountOverview.from_positions_and_collaterals balance positions collaterals).account_value_discounted -
        (AccountOverview.from_positions_and_collaterals balance positions collaterals).total_margin_maintenance ∧
    (AccountOverview.from_positions_and_collaterals balance [] []).total_pnl = 0 ∧
    (AccountOverview.from_positions_and_collaterals balance [] []).total_margin = 0 ∧
    (AccountOverview.from_positions_and_collaterals balance [] []).total_margin_maintenance = 0 ∧
    (AccountOverview.from_positions_and_collaterals balance [] []).total_collateral_value = 0 ∧
    (AccountOverview.from_positions_and_collaterals balance [] []).total_collateral_value_discounted = 0 ∧
    (AccountOverview.from_positions_and_collaterals balance [] []).account_value = balance := by
  simp [AccountOverview.from_positions_and_collaterals]

/-- C8: the request decoder crashes on an unrecognized top-level
variant instead of resolving to the Unknown sentinel.  The source reads
`request[1]['fields'][0]['fields']` before dispatching on the variant
id, so a request whose variant id is 2 and whose variant payload has an
empty `fields` list raises `IndexError` (modelled `shapeError`), even
though its status code (0) and overall shape are well formed and the
dedicated fallback arm mapping unknown variants to `Unknown` exists. -/
theorem request_unknown_variant_raises :
    Request.from_json (structNode [leaf (.num 1),
      SborValue.mk Option.none (some (.num 2)) (some []) Option.none,
      leaf (.str "sub"), leaf (.str "exp"), leaf (.num 0)])
      = .error .shapeError := by
  rfl

set_option maxHeartbeats 1600000 in
/-- C9: a position, collateral or pair-details record referencing a
pair absent from the price map makes the decoder fail with a
`missingPrice` error naming that pair (Python `KeyError(pair)` on the
price dictionary), rather than valuing the record with a substituted
price. -/
theorem missing_price_aborts (pair resource : String) (prices : String → Option ℚ)
    (size margin margin_maintenance cost funding : ℚ)
    (amount discount cmargin : ℚ)
    (oi_long oi_short pcost p3 p4 funding_2_raw : ℚ) (cpair : String)
    (c1 c2 c3 c4 c5 c6 c7 c8 c9 c10 c11 c12 c13 c14 c15 c16 : ℚ)
    (hmiss : prices pair = Option.none) :
    Position.from_json (mkPositionRecord pair size margin margin_maintenance cost funding) prices
      = .error (.missingPrice pair) ∧
    Collateral.from_json (mkCollateralRecord pair resource amount discount cmargin) prices
      = .error (.missingPrice pair) ∧
    PairDetails.from_json (mkPairDetailsRecord pair oi_long oi_short pcost p3 p4 funding_2_raw
        (mkPairConfigFields cpair c1 c2 c3 c4 c5 c6 c7 c8 c9 c10 c11 c12 c13 c14 c15 c16)) prices
      = .error (.missingPrice pair) := by
  refine ⟨?_, ?_, ?_⟩
  · simp [Position.from_json, mkPositionRecord, structNode, leaf, getStr, getVal, getFloat,
      getField, orShape, Val.toFloat, Val.asStr, lookupPrice, SborValue.fields,
      SborValue.value, hmiss, Except.bind, Except.pure, Except.instMonad]
  · simp [Collateral.from_json, mkCollateralRecord, structNode, leaf, getStr, getVal,
      getFloat, getField, orShape, Val.toFloat, Val.asStr, lookupPrice, SborValue.fields,
      SborValue.value, hmiss, Except.bind, Except.pure, Except.instMonad]
  · simp [PairDetails.from_json, PairConfig.from_json, mkPairDetailsRecord,
      mkPairConfigFields, structNode, leaf, getStr, getVal, getFloat, getInt, getField,
      orShape, Val.toFloat, Val.toInt, Val.asStr, lookupPrice, SborValue.fields,
      SborValue.value, hmiss, Except.bind, Except.pure, Except.instMonad]

/-- C9 witness: the three decoders abort with the pair-identifying
error on an empty price map. -/
theorem missing_price_aborts_witness :
    ((fun _ : String => (Option.none : Option ℚ)) "BTC/USD" = Option.none) ∧
    (Position.from_json (mkPositionRecord "BTC/USD" 1 2 3 4 5) (fun _ => Option.none)
        = .error (.missingPrice "BTC/USD") ∧
     Collateral.from_json (mkCollateralRecord "BTC/USD" "res" 1 2 3) (fun _ => Option.none)
        = .error (.missingPrice "BTC/USD") ∧
     PairDetails.from_json (mkPairDetailsRecord "BTC/USD" 1 2 3 4 5 6
        (mkPairConfigFields "BTC/USD" 1 2 3 4 5 6 7 8 9 10 11 12 13 14 15 16))
        (fun _ => Option.none)
        = .error (.missingPrice "BTC/USD")) :=
  ⟨rfl, missing_price_aborts "BTC/USD" "res" (fun _ => Option.none) 1 2 3 4 5 1 2 3
    1 2 3 4 5 6 "BTC/USD" 1 2 3 4 5 6 7 8 9 10 11 12 13 14 15 16 rfl⟩

/-- C10: with nonzero size but zero stored cost, the position valuer
hits the unguarded division `pnl / abs(cost)` in the ROI computation
and raises (Python `ZeroDivisionError`) instead of returning a valued
position; the only precondition the spec states is nonzero size. -/
theorem zero_cost_roi_raises (pair : String)
    (size margin margin_maintenance funding price : ℚ)
    (prices : String → Option ℚ) (hsize : size ≠ 0) (hprice : prices pair = some price) :
    Position.from_json (mkPositionRecord pair size margin margin_maintenance 0 funding) prices
      = .error .divisionByZero := by
  simp [Position.from_json, mkPositionRecord, structNode, leaf, getStr, getVal, getFloat,
    getField, orShape, Val.toFloat, Val.asStr, lookupPrice, SborValue.fields,
    SborValue.value, hprice, pydiv, hsize, Except.bind, Except.pure, Except.instMonad]

/-- C10 witness: a freshly opened-looking position with size 1 and zero
cost basis makes the valuer raise even though its pair is priced. -/
theorem zero_cost_roi_raises_witness :
    (1 : ℚ) ≠ 0 ∧
    ((fun p : String => if p = "BTC/USD" then some (100 : ℚ) else Option.none) "BTC/USD"
      = some 100) ∧
    Position.from_json (mkPositionRecord "BTC/USD" 1 2 3 0 4)
      (fun p => if p = "BTC/USD" then some (100 : ℚ) else Option.none)
      = .error .divisionByZero :=
  ⟨by decide, by rfl,
    zero_cost_roi_raises "BTC/USD" 1 2 3 4 100 _ (by decide) (by rfl)⟩
